import Mathlib

/-!
Verification development for the qrticket-docs crawler
(src/crawler/index.ts).

The development shallowly embeds the three cores of the source file:

1. the in-page DOM sanitizer executed via page.evaluate
   (element removal, comment removal, attribute stripping,
   empty-element removal, empty-container collapse, body innerHTML);
2. the formatForLLM pure formatter over PageData;
3. the requestHandler control flow (loadedUrl skip check,
   Dataset.pushData payload, enqueueLinks exclusion filter).

DOM documents are modelled as trees of elements, text nodes and comment
nodes; strings are Lean strings; the JavaScript string operations used by
the source (String.prototype.includes, startsWith, toUpperCase, trim,
repeat, regular-expression test against an unanchored literal pattern)
are modelled by executable character-list functions so that every
definition evaluates inside Lean.
-/

namespace Crawler

/-! ### Character-list string primitives -/

/-- Prefix test on character lists: chStarts p s is true when p is an
initial segment of s.  Models JavaScript String.prototype.startsWith. -/
def chStarts : List Char → List Char → Bool
  | [], _ => true
  | _ :: _, [] => false
  | a :: as, b :: bs => a == b && chStarts as bs

/-- Substring test on character lists: chHas p s is true when p occurs
contiguously anywhere inside s.  Models JavaScript
String.prototype.includes and the test of an unanchored literal regular
expression. -/
def chHas (pat : List Char) : List Char → Bool
  | [] => chStarts pat []
  | s :: rest => chStarts pat (s :: rest) || chHas pat rest

/-- JavaScript url.includes(pat). -/
def jsIncludes (s pat : String) : Bool := chHas pat.data s.data

/-- JavaScript s.startsWith(pat). -/
def strBegins (s pat : String) : Bool := chStarts pat.data s.data

/-- Concatenation of a list of strings in order; models a JavaScript
forEach loop that appends each piece to an accumulator. -/
def strJoin : List String → String
  | [] => ""
  | s :: rest => s ++ strJoin rest

/-- JavaScript s.repeat(n) for a natural number count. -/
def strRepeat (s : String) : Nat → String
  | 0 => ""
  | n + 1 => s ++ strRepeat s n

/-- JavaScript s.toUpperCase restricted to ASCII input, as produced by
tag names and type attributes in the source. -/
def strUpper (s : String) : String := ⟨s.data.map Char.toUpper⟩

/-- Whitespace characters recognised by the trim operations that the
sanitizer applies to ASCII text content. -/
def wsChar (ch : Char) : Bool :=
  ch == ' ' || ch == '\t' || ch == '\n' || ch == '\r' || ch == '\x0c'

/-- JavaScript s.trim restricted to ASCII whitespace. -/
def strTrim (s : String) : String :=
  ⟨((s.data.dropWhile wsChar).reverse.dropWhile wsChar).reverse⟩

theorem chStarts_iff : ∀ p s : List Char, chStarts p s = true ↔ ∃ t, s = p ++ t
  | [], s => by simp [chStarts]
  | a :: as, [] => by simp [chStarts]
  | a :: as, b :: bs => by
      rw [chStarts, Bool.and_eq_true, beq_iff_eq, chStarts_iff as bs]
      constructor
      · rintro ⟨rfl, t, rfl⟩
        exact ⟨t, rfl⟩
      · rintro ⟨t, h⟩
        injection h with h1 h2
        exact ⟨h1.symm, t, h2⟩

theorem chHas_iff : ∀ p s : List Char, chHas p s = true ↔ ∃ u v, s = u ++ p ++ v
  | p, [] => by
      rw [chHas, chStarts_iff]
      constructor
      · rintro ⟨t, h⟩
        exact ⟨[], t, by simpa using h⟩
      · rintro ⟨u, v, h⟩
        have h2 := h.symm
        simp only [List.append_assoc, List.append_eq_nil] at h2
        exact ⟨v, by simp [h2.2.1, h2.2.2]⟩
  | p, b :: bs => by
      rw [chHas, Bool.or_eq_true, chStarts_iff, chHas_iff p bs]
      constructor
      · rintro (⟨t, h⟩ | ⟨u, v, h⟩)
        · exact ⟨[], t, by simpa using h⟩
        · exact ⟨b :: u, v, by simp [h]⟩
      · rintro ⟨u, v, h⟩
        cases u with
        | nil => exact Or.inl ⟨v, by simpa using h⟩
        | cons x xs =>
            simp only [List.cons_append] at h
            injection h with h1 h2
            exact Or.inr ⟨xs, v, h2⟩

/-- If the pattern small occurs inside the pattern big, then any string
containing big also contains small. -/
theorem jsIncludes_trans (u big small : String)
    (hsub : jsIncludes big small = true) (hbig : jsIncludes u big = true) :
    jsIncludes u small = true := by
  simp only [jsIncludes, chHas_iff] at *
  obtain ⟨a, b, hab⟩ := hsub
  obtain ⟨c, d, hcd⟩ := hbig
  exact ⟨c ++ a, b ++ d, by simp [hcd, hab]⟩

theorem append_ne_empty (a b : String) (h : 0 < a.length) : a ++ b ≠ "" := by
  intro hc
  apply_fun String.length at hc
  simp [String.length_append] at hc
  omega

/-! ### DOM model -/

/-- A DOM node: an element with a (lower-case) tag name, an ordered
attribute list and child nodes, a text node, or a comment node. -/
inductive Node where
  | element (tag : String) (attrs : List (String × String)) (children : List Node)
  | text (s : String)
  | comment (s : String)

/-- Attribute lookup; models el.getAttribute. -/
def getAttr (attrs : List (String × String)) (aName : String) : Option String :=
  match attrs.find? (fun p => p.1 == aName) with
  | some p => some p.2
  | none => none

/-- Models el.hasAttribute. -/
def hasAttr (attrs : List (String × String)) (aName : String) : Bool :=
  (getAttr attrs aName).isSome

/-- Truthiness of the el.id IDL property: false when the id attribute is
absent or the empty string. -/
def idTruthy (attrs : List (String × String)) : Bool :=
  match getAttr attrs "id" with
  | some v => !(v == "")
  | none => false

/-- Tags removed by the first sanitizer pass, from the querySelectorAll
call of the source. -/
def removedTags : List String :=
  ["script", "style", "noscript", "svg", "img", "br", "hr", "canvas",
   "video", "audio", "picture", "source", "next-route-announcer"]

/-- Attribute deny list of the third sanitizer pass, from the
attributesToRemove array of the source. -/
def deniedAttrs : List String :=
  ["class", "style", "tabindex", "aria-expanded", "aria-selected",
   "aria-haspopup", "aria-atomic", "aria-live", "aria-relevant", "target",
   "rel", "spellcheck", "draggable", "contenteditable", "aria-label"]

/-- Sanitizer pass 1: remove every element whose tag is in removedTags,
together with its subtree. -/
def removeNonSemanticL : List Node → List Node
  | [] => []
  | .element t a c :: rest =>
      if t ∈ removedTags then removeNonSemanticL rest
      else .element t a (removeNonSemanticL c) :: removeNonSemanticL rest
  | n :: rest => n :: removeNonSemanticL rest

/-- Sanitizer pass 2: remove every comment node in the forest, as the
tree walker over SHOW_COMMENT nodes does. -/
def removeCommentsL : List Node → List Node
  | [] => []
  | .comment _ :: rest => removeCommentsL rest
  | .element t a c :: rest => .element t a (removeCommentsL c) :: removeCommentsL rest
  | n :: rest => n :: removeCommentsL rest

/-- An attribute survives pass 3 when its name does not start with the
data- private-data marker and is not on the deny list. -/
def keepAttr (p : String × String) : Bool :=
  !(chStarts "data-".data p.1.data) && !(deniedAttrs.contains p.1)

/-- Sanitizer pass 3: strip data- attributes and deny-listed attributes
from every element. -/
def cleanAttrsL : List Node → List Node
  | [] => []
  | .element t a c :: rest =>
      .element t (a.filter keepAttr) (cleanAttrsL c) :: cleanAttrsL rest
  | n :: rest => n :: cleanAttrsL rest

/-- Condition of sanitizer pass 4 on one node: a div, span or p matched
by the CSS selector div:empty, span:empty, p:empty (no child nodes at
all) with falsy id and neither href nor type attribute. -/
def emptyRemovable : Node → Bool
  | .element t a c =>
      (t == "div" || t == "span" || t == "p") && c.isEmpty
        && !(idTruthy a) && !(hasAttr a "href") && !(hasAttr a "type")
  | _ => false

/-- Sanitizer pass 4: remove childless div, span and p elements with no
meaningful attributes.  The source snapshots the matches before removing
them; since every match is childless, removals cannot create or destroy
matches, so a single traversal is faithful. -/
def removeEmptyL : List Node → List Node
  | [] => []
  | .element t a c :: rest =>
      if emptyRemovable (.element t a c) then removeEmptyL rest
      else .element t a (removeEmptyL c) :: removeEmptyL rest
  | n :: rest => n :: removeEmptyL rest

/-- Concatenated text of a forest; models the textContent property. -/
def textContentL : List Node → String
  | [] => ""
  | .element _ _ c :: rest => textContentL c ++ textContentL rest
  | .text s :: rest => s ++ textContentL rest
  | .comment _ :: rest => textContentL rest

def isElement : Node → Bool
  | .element _ _ _ => true
  | _ => false

/-- Condition on each element child inside the every callback of
sanitizer pass 5: a div or span whose trimmed text content is empty and
which carries neither href nor type. -/
def blankDivSpanChild : Node → Bool
  | .element t a c =>
      (t == "div" || t == "span") && strTrim (textContentL c) == ""
        && !(hasAttr a "href") && !(hasAttr a "type")
  | _ => false

/-- Condition of sanitizer pass 5 on one container: a div or span all of
whose element children are blank div or span wrappers (vacuously true
when it has no element children) and whose own trimmed text content is
empty. -/
def containerRemovable : Node → Bool
  | .element t _ c =>
      (t == "div" || t == "span") && (c.filter isElement).all blankDivSpanChild
        && strTrim (textContentL c) == ""
  | _ => false

/-- Sanitizer pass 5: remove containers satisfying containerRemovable.
The source iterates a pre-order querySelectorAll snapshot, so every
container still attached when inspected is inspected against its
original subtree; removal of a container detaches its descendants
before they are reached, which this top-down rebuild reproduces. -/
def collapseContainersL : List Node → List Node
  | [] => []
  | .element t a c :: rest =>
      if containerRemovable (.element t a c) then collapseContainersL rest
      else .element t a (collapseContainersL c) :: collapseContainersL rest
  | n :: rest => n :: collapseContainersL rest

/-- The whole sanitization pass of the page.evaluate block, applied to
the children of the body element, in source order. -/
def sanitizeBodyL (l : List Node) : List Node :=
  collapseContainersL (removeEmptyL (cleanAttrsL (removeCommentsL (removeNonSemanticL l))))

def attrMarkup (p : String × String) : String :=
  " " ++ p.1 ++ "=\"" ++ p.2 ++ "\""

def attrsMarkup : List (String × String) → String
  | [] => ""
  | p :: rest => attrMarkup p ++ attrsMarkup rest

/-- HTML serialization of a forest; models document.body.innerHTML over
the node kinds the sanitizer can leave behind. -/
def serializeL : List Node → String
  | [] => ""
  | .element t a c :: rest =>
      "<" ++ t ++ attrsMarkup a ++ ">" ++ serializeL c ++ "</" ++ t ++ ">" ++ serializeL rest
  | .text s :: rest => s ++ serializeL rest
  | .comment s :: rest => "<!--" ++ s ++ "-->" ++ serializeL rest

/-! ### Cleanliness predicates for the sanitized tree -/

/-- The element kinds that claim C1 requires to be absent. -/
def badTags : List String :=
  ["script", "style", "noscript", "svg", "img", "canvas", "video", "audio"]

/-- No element of the forest has a tag in badTags. -/
def tagsOkL : List Node → Bool
  | [] => true
  | .element t _ c :: rest => !(badTags.contains t) && tagsOkL c && tagsOkL rest
  | _ :: rest => tagsOkL rest

/-- No bad tags and no comment nodes anywhere in the forest. -/
def tagsCommentsOkL : List Node → Bool
  | [] => true
  | .element t _ c :: rest => !(badTags.contains t) && tagsCommentsOkL c && tagsCommentsOkL rest
  | .comment _ :: _ => false
  | .text _ :: rest => tagsCommentsOkL rest

/-- Full cleanliness: no bad tags, no comment nodes, and no attribute
whose name starts with data- anywhere in the forest. -/
def cleanDomL : List Node → Bool
  | [] => true
  | .element t a c :: rest =>
      !(badTags.contains t) && a.all (fun p => !(chStarts "data-".data p.1.data))
        && cleanDomL c && cleanDomL rest
  | .comment _ :: _ => false
  | .text _ :: rest => cleanDomL rest

theorem badTags_sub_removed (t : String) (h : badTags.contains t = true) :
    t ∈ removedTags := by
  have h2 : t ∈ badTags := by simpa using h
  simp only [badTags, List.mem_cons, List.not_mem_nil, or_false] at h2
  rcases h2 with rfl | rfl | rfl | rfl | rfl | rfl | rfl | rfl <;> decide

theorem tagsOk_removeNonSemantic : ∀ l, tagsOkL (removeNonSemanticL l) = true
  | [] => by simp [removeNonSemanticL, tagsOkL]
  | .element t a c :: rest => by
      by_cases h : t ∈ removedTags
      · simp [removeNonSemanticL, h, tagsOk_removeNonSemantic rest]
      · have hb : t ∉ badTags := fun hm => h (badTags_sub_removed t (by simpa using hm))
        simp [removeNonSemanticL, h, tagsOkL, hb,
          tagsOk_removeNonSemantic rest, tagsOk_removeNonSemantic c]
  | .text s :: rest => by simp [removeNonSemanticL, tagsOkL, tagsOk_removeNonSemantic rest]
  | .comment s :: rest => by simp [removeNonSemanticL, tagsOkL, tagsOk_removeNonSemantic rest]

theorem tagsCommentsOk_removeComments :
    ∀ l, tagsOkL l = true → tagsCommentsOkL (removeCommentsL l) = true
  | [], _ => by simp [removeCommentsL, tagsCommentsOkL]
  | .element t a c :: rest, h => by
      simp only [tagsOkL, Bool.and_eq_true] at h
      obtain ⟨⟨ht, hc⟩, hr⟩ := h
      have ht2 : t ∉ badTags := by simpa using ht
      simp [removeCommentsL, tagsCommentsOkL, ht2,
        tagsCommentsOk_removeComments c hc,
        tagsCommentsOk_removeComments rest hr]
  | .text s :: rest, h => by
      simp only [tagsOkL] at h
      simp [removeCommentsL, tagsCommentsOkL, tagsCommentsOk_removeComments rest h]
  | .comment s :: rest, h => by
      simp only [tagsOkL] at h
      simp [removeCommentsL, tagsCommentsOk_removeComments rest h]

theorem filtered_attrs_clean (a : List (String × String)) :
    (a.filter keepAttr).all (fun p => !(chStarts "data-".data p.1.data)) = true := by
  rw [List.all_eq_true]
  intro p hp
  rw [List.mem_filter] at hp
  have h2 := hp.2
  simp only [keepAttr, Bool.and_eq_true] at h2
  simpa using h2.1

theorem cleanDom_cleanAttrs :
    ∀ l, tagsCommentsOkL l = true → cleanDomL (cleanAttrsL l) = true
  | [], _ => by simp [cleanAttrsL, cleanDomL]
  | .element t a c :: rest, h => by
      simp only [tagsCommentsOkL, Bool.and_eq_true] at h
      obtain ⟨⟨ht, hc⟩, hr⟩ := h
      have ht2 : t ∉ badTags := by simpa using ht
      simp [cleanAttrsL, cleanDomL, ht2, filtered_attrs_clean a,
        cleanDom_cleanAttrs c hc, cleanDom_cleanAttrs rest hr]
  | .text s :: rest, h => by
      simp only [tagsCommentsOkL] at h
      simp [cleanAttrsL, cleanDomL, cleanDom_cleanAttrs rest h]
  | .comment s :: rest, h => by
      exact absurd h (by simp [tagsCommentsOkL])

theorem cleanDom_removeEmpty :
    ∀ l, cleanDomL l = true → cleanDomL (removeEmptyL l) = true
  | [], _ => by simp [removeEmptyL, cleanDomL]
  | .element t a c :: rest, h => by
      simp only [cleanDomL, Bool.and_eq_true] at h
      obtain ⟨⟨⟨ht, ha⟩, hc⟩, hr⟩ := h
      have ht2 : t ∉ badTags := by simpa using ht
      by_cases he : emptyRemovable (.element t a c) = true
      · simp [removeEmptyL, he, cleanDom_removeEmpty rest hr]
      · simp [removeEmptyL, he, cleanDomL, ht2, ha,
          cleanDom_removeEmpty c hc, cleanDom_removeEmpty rest hr]
  | .text s :: rest, h => by
      simp only [cleanDomL] at h
      simp [removeEmptyL, cleanDomL, cleanDom_removeEmpty rest h]
  | .comment s :: rest, h => by
      exact absurd h (by simp [cleanDomL])

theorem cleanDom_collapseContainers :
    ∀ l, cleanDomL l = true → cleanDomL (collapseContainersL l) = true
  | [], _ => by simp [collapseContainersL, cleanDomL]
  | .element t a c :: rest, h => by
      simp only [cleanDomL, Bool.and_eq_true] at h
      obtain ⟨⟨⟨ht, ha⟩, hc⟩, hr⟩ := h
      have ht2 : t ∉ badTags := by simpa using ht
      by_cases he : containerRemovable (.element t a c) = true
      · simp [collapseContainersL, he, cleanDom_collapseContainers rest hr]
      · simp [collapseContainersL, he, cleanDomL, ht2, ha,
          cleanDom_collapseContainers c hc, cleanDom_collapseContainers rest hr]
  | .text s :: rest, h => by
      simp only [cleanDomL] at h
      simp [collapseContainersL, cleanDomL, cleanDom_collapseContainers rest h]
  | .comment s :: rest, h => by
      exact absurd h (by simp [cleanDomL])

/-- Claim C1: for every input document, the markup returned by the
sanitization pass contains no comment nodes, no script, style, noscript,
svg, img, canvas, video, or audio elements, and no attribute whose name
starts with the prefix data-. -/
theorem sanitize_output_clean (l : List Node) : cleanDomL (sanitizeBodyL l) = true :=
  cleanDom_collapseContainers _
    (cleanDom_removeEmpty _
      (cleanDom_cleanAttrs _
        (tagsCommentsOk_removeComments _ (tagsOk_removeNonSemantic l))))

/-! ### Concrete sanitizer example from the spec -/

/-- The document fragment of the spec example: a div containing an empty
span, a whitespace-only p, and an anchor with href and text. -/
def exampleFragment : Node :=
  .element "div" []
    [.element "span" [] [],
     .element "p" [] [.text "  "],
     .element "a" [("href", "/x")] [.text "Go"]]

/-- Claim C4 (amended): sanitizing the fragment of a div holding an
empty span, a whitespace-only p and an anchor yields the div with the
whitespace-only p and the anchor: the empty span is removed and the
anchor preserved, but the p survives, because the CSS empty selector
does not match an element containing a whitespace text node and the
container-collapse pass only inspects div and span elements. -/
theorem sanitize_example_eval :
    serializeL (sanitizeBodyL [exampleFragment]) =
      "<div><p>  </p><a href=\"/x\">Go</a></div>" := by
  simp [exampleFragment, sanitizeBodyL, removeNonSemanticL, removeCommentsL,
    cleanAttrsL, removeEmptyL, collapseContainersL, serializeL, attrsMarkup,
    attrMarkup, keepAttr, emptyRemovable, containerRemovable, blankDivSpanChild,
    textContentL, strTrim, wsChar, getAttr, hasAttr, idTruthy, isElement,
    removedTags, deniedAttrs, chStarts]

/-- Claim C4, counterexample to the claim as stated: the sanitized
markup of the example fragment is not the div holding only the anchor,
since the whitespace-only p is retained. -/
theorem sanitize_example_claim_false :
    serializeL (sanitizeBodyL [exampleFragment]) ≠ "<div><a href=\"/x\">Go</a></div>" := by
  simp [exampleFragment, sanitizeBodyL, removeNonSemanticL, removeCommentsL,
    cleanAttrsL, removeEmptyL, collapseContainersL, serializeL, attrsMarkup,
    attrMarkup, keepAttr, emptyRemovable, containerRemovable, blankDivSpanChild,
    textContentL, strTrim, wsChar, getAttr, hasAttr, idTruthy, isElement,
    removedTags, deniedAttrs, chStarts]

/-! ### PageData and the formatter -/

structure Heading where
  level : Nat
  text : String
  id : Option String
deriving DecidableEq

structure Link where
  text : String
  href : String
deriving DecidableEq

structure InputElement where
  type : String
  text : String
  placeholder : Option String
deriving DecidableEq

structure ButtonElement where
  type : String
  text : String
deriving DecidableEq

structure FormElement where
  type : String
  text : String
deriving DecidableEq

structure InteractiveElement where
  type : String
  text : String
  id : Option String
deriving DecidableEq

/-- The PageData record of the source (the PageRecord of the spec). -/
structure PageData where
  title : String
  url : String
  textContent : String
  headings : List Heading
  linkElements : List Link
  inputElements : List InputElement
  buttonElements : List ButtonElement
  formElements : List FormElement
  interactiveElements : List InteractiveElement
deriving DecidableEq

/-- One line of the Page Structure section. -/
def headingLine (h : Heading) : String :=
  strRepeat "  " (h.level - 1) ++ "- " ++ h.text ++ "\n"

def structureSection (hs : List Heading) : String :=
  if hs.length > 0 then
    "## Page Structure\n\n" ++ strJoin (hs.map headingLine) ++ "\n"
  else ""

/-- One iteration of the navigation forEach: a line only when the link
text is truthy. -/
def navLine (l : Link) : String :=
  if l.text ≠ "" then "- " ++ l.text ++ ": " ++ l.href ++ "\n" else ""

def navSection (ls : List Link) : String :=
  if ls.length > 0 then
    "## Available Navigation\n\n" ++ strJoin (ls.map navLine) ++ "\n"
  else ""

/-- The optional ID suffix of an interactive element line; appended only
when the id is truthy. -/
def idSuffix : Option String → String
  | some i => if i ≠ "" then " (ID: " ++ i ++ ")" else ""
  | none => ""

/-- One iteration of the interactive-elements forEach: a line only when
the element text is truthy. -/
def interactiveLine (e : InteractiveElement) : String :=
  if e.text ≠ "" then
    "- **" ++ strUpper e.type ++ "**: \"" ++ e.text ++ "\"" ++ idSuffix e.id ++ "\n"
  else ""

def interactiveSection (es : List InteractiveElement) : String :=
  if es.length > 0 then
    "## Interactive Elements\n\n" ++ strJoin (es.map interactiveLine) ++ "\n"
  else ""

/-- The quoted placeholder fragment of an input line; empty when the
placeholder is null or empty. -/
def placeholderPart : Option String → String
  | some p => if p ≠ "" then "\"" ++ p ++ "\"" else ""
  | none => ""

def inputLine (ie : InputElement) : String :=
  "- **" ++ strUpper ie.type ++ "**: \"" ++ placeholderPart ie.placeholder
    ++ " " ++ ie.text ++ "\"\n"

/-- The Input Elements section; note that unlike the first three
sections the source appends no extra newline after the loop. -/
def inputSection (xs : List InputElement) : String :=
  if xs.length > 0 then "## Input Elements\n\n" ++ strJoin (xs.map inputLine)
  else ""

def buttonLine (b : ButtonElement) : String :=
  "- **" ++ strUpper b.type ++ "**: \"" ++ b.text ++ "\"\n"

def buttonSection (bs : List ButtonElement) : String :=
  if bs.length > 0 then "## Button Elements\n\n" ++ strJoin (bs.map buttonLine)
  else ""

def formLine (f : FormElement) : String :=
  "- **" ++ strUpper f.type ++ "**: \"" ++ f.text ++ "\"\n"

def formSection (fs : List FormElement) : String :=
  if fs.length > 0 then "## Form Elements\n\n" ++ strJoin (fs.map formLine)
  else ""

/-- The formatForLLM function of the source: title header, URL line,
then the six conditional sections, then the always-present Page Content
section, appended in source order. -/
def formatForLLM (d : PageData) : String :=
  "# " ++ d.title ++ "\n\n" ++ "**URL:** " ++ d.url ++ "\n\n"
    ++ structureSection d.headings
    ++ navSection d.linkElements
    ++ interactiveSection d.interactiveElements
    ++ inputSection d.inputElements
    ++ buttonSection d.buttonElements
    ++ formSection d.formElements
    ++ "## Page Content\n\n" ++ d.textContent

/-! ### The request handler -/

/-- Input to one requestHandler invocation: the loaded (post-redirect)
URL, the document title, the body children of the loaded document, and
the same-origin link targets that enqueueLinks would consider. -/
structure NavigatedPage where
  loadedUrl : String
  title : String
  bodyChildren : List Node
  discoveredLinks : List String

/-- Outcome of one requestHandler invocation: an early return before
extraction, or an extraction pushing one record to the dataset and
enqueueing the filtered links. -/
inductive HandlerOutcome where
  | skipped
  | extracted (pushed : List (String × String)) (enqueued : List String)
deriving DecidableEq

/-- The configured exclusion pattern: the unanchored regular expression
on the literal https://qrticket.app/e/, passed to enqueueLinks.  An
unanchored literal pattern matches exactly the strings containing that
literal as a substring. -/
def exclRegexTest (u : String) : Bool := jsIncludes u "https://qrticket.app/e/"

/-- The object given to Dataset.pushData, as an ordered key-value list. -/
def pushedData (title url timestamp html : String) : List (String × String) :=
  [("title", title), ("url", url), ("timestamp", timestamp), ("html", html)]

/-- The requestHandler of the source: return early (skip) when the
loaded URL contains /e/, otherwise push the four-field record built from
the title, the loaded URL, the capture time and the sanitized markup,
and enqueue the discovered links that do not match the exclusion
pattern.  The capture time of new Date is passed in as now. -/
def requestHandler (now : String) (p : NavigatedPage) : HandlerOutcome :=
  if jsIncludes p.loadedUrl "/e/" then .skipped
  else .extracted
    (pushedData p.title p.loadedUrl now (serializeL (sanitizeBodyL p.bodyChildren)))
    (p.discoveredLinks.filter (fun u => !(exclRegexTest u)))

/-- Claim C2: no URL matching the configured exclusion pattern ever
reaches the Extracted state: a pattern match on the loaded URL forces
the skipped outcome (so no record is emitted), and no link matching the
pattern is ever enqueued by an extraction. -/
theorem excluded_url_never_extracted :
    (∀ (now : String) (p : NavigatedPage), exclRegexTest p.loadedUrl = true →
        requestHandler now p = HandlerOutcome.skipped)
  ∧ (∀ (now : String) (p : NavigatedPage) (kvs : List (String × String)) (ls : List String),
        requestHandler now p = HandlerOutcome.extracted kvs ls →
        ∀ u ∈ ls, exclRegexTest u = false) := by
  constructor
  · intro now p h
    have h2 : jsIncludes p.loadedUrl "/e/" = true :=
      jsIncludes_trans p.loadedUrl "https://qrticket.app/e/" "/e/" (by decide) h
    simp [requestHandler, h2]
  · intro now p kvs ls heq u hu
    by_cases hs : jsIncludes p.loadedUrl "/e/" = true
    · simp [requestHandler, hs] at heq
    · simp only [requestHandler, hs, Bool.false_eq_true, if_false,
        HandlerOutcome.extracted.injEq] at heq
      rw [← heq.2, List.mem_filter] at hu
      simpa using hu.2

def skipExample : NavigatedPage :=
  NavigatedPage.mk "https://qrticket.app/e/123" "Event" [] []

theorem excluded_url_never_extracted_witness :
    requestHandler "2026-02-03T04:05:06.000Z" skipExample = HandlerOutcome.skipped :=
  excluded_url_never_extracted.1 "2026-02-03T04:05:06.000Z" skipExample (by decide)

/-- Claim C10, counterexample to the claim as stated: the enqueue-time
filter is an unanchored pattern, so it also matches a URL that merely
contains https://qrticket.app/e/ without beginning with it. -/
theorem exclude_checks_counterexample :
    exclRegexTest "https://qrticket.app/r?next=https://qrticket.app/e/1" = true
  ∧ strBegins "https://qrticket.app/r?next=https://qrticket.app/e/1"
      "https://qrticket.app/e/" = false := by
  constructor
  · decide
  · decide

/-- Claim C10 (amended): the post-navigation skip check matches any
loaded URL containing /e/ anywhere; the enqueue-time filter matches
exactly the URLs containing the substring https://qrticket.app/e/;
every URL the enqueue filter matches is also matched by the skip check,
and the two predicates disagree on a same-site URL with /e/ in a deeper
path segment, which the enqueue filter accepts but the skip check
skips. -/
theorem exclude_checks_relation :
    (∀ u : String, exclRegexTest u = true → jsIncludes u "/e/" = true)
  ∧ exclRegexTest "https://qrticket.app/dashboard/e/settings" = false
  ∧ jsIncludes "https://qrticket.app/dashboard/e/settings" "/e/" = true := by
  refine ⟨?_, by decide, by decide⟩
  intro u h
  exact jsIncludes_trans u "https://qrticket.app/e/" "/e/" (by decide) h

theorem exclude_checks_relation_witness :
    jsIncludes "https://qrticket.app/e/9" "/e/" = true :=
  exclude_checks_relation.1 "https://qrticket.app/e/9" (by decide)

def examplePage : NavigatedPage :=
  NavigatedPage.mk "https://qrticket.app/dashboard" "Dashboard"
    [Node.element "p" [] [Node.text "Hi"]] []

/-- Claim C8, counterexample to the claim as stated: on a concrete
successful page the handler pushes exactly the four-field record; its
key list is title, url, timestamp, html, so no PageRecord and no
formatted rendering accompany it to the sink. -/
theorem pushed_record_counterexample :
    requestHandler "2026-02-03T04:05:06.000Z" examplePage
      = HandlerOutcome.extracted
          [("title", "Dashboard"), ("url", "https://qrticket.app/dashboard"),
           ("timestamp", "2026-02-03T04:05:06.000Z"), ("html", "<p>Hi</p>")] []
  ∧ (pushedData "Dashboard" "https://qrticket.app/dashboard"
        "2026-02-03T04:05:06.000Z" "<p>Hi</p>").map Prod.fst
      = ["title", "url", "timestamp", "html"] := by
  constructor
  · have hc : jsIncludes "https://qrticket.app/dashboard" "/e/" = false := by decide
    simp [requestHandler, examplePage, hc, pushedData, sanitizeBodyL,
      removeNonSemanticL, removeCommentsL, cleanAttrsL, removeEmptyL,
      collapseContainersL, serializeL, attrsMarkup, attrMarkup, keepAttr,
      emptyRemovable, containerRemovable, blankDivSpanChild, textContentL,
      strTrim, wsChar, getAttr, hasAttr, idTruthy, isElement, removedTags,
      deniedAttrs, chStarts]
  · decide

/-- Claim C8 (amended): for every successfully crawled page the record
pushed to the sink has exactly the shape title, url, timestamp, html,
where url is the loaded URL, timestamp the capture time, and html the
cleaned markup; nothing else (in particular no PageRecord and no
formatted rendering) is pushed. -/
theorem pushed_record_shape :
    ∀ (now : String) (p : NavigatedPage), jsIncludes p.loadedUrl "/e/" = false →
      requestHandler now p = HandlerOutcome.extracted
        [("title", p.title), ("url", p.loadedUrl), ("timestamp", now),
         ("html", serializeL (sanitizeBodyL p.bodyChildren))]
        (p.discoveredLinks.filter (fun u => !(exclRegexTest u))) := by
  intro now p h
  simp [requestHandler, h, pushedData]

theorem pushed_record_shape_witness :
    requestHandler "2026-02-03T04:05:06.000Z" examplePage
      = HandlerOutcome.extracted
        [("title", examplePage.title), ("url", examplePage.loadedUrl),
         ("timestamp", "2026-02-03T04:05:06.000Z"),
         ("html", serializeL (sanitizeBodyL examplePage.bodyChildren))]
        (examplePage.discoveredLinks.filter (fun u => !(exclRegexTest u))) :=
  pushed_record_shape "2026-02-03T04:05:06.000Z" examplePage (by decide)

/-! ### Formatter claims -/

def determinismExample : PageData :=
  PageData.mk "Title" "https://qrticket.app/dashboard" "Body text" [] [] [] [] [] []

/-- Claim C3: the formatter is a deterministic pure function: two
invocations of format on structurally identical PageRecords produce
byte-identical output strings. -/
theorem formatForLLM_deterministic (d1 d2 : PageData) (h : d1 = d2) :
    formatForLLM d1 = formatForLLM d2 := by rw [h]

theorem formatForLLM_deterministic_witness :
    formatForLLM determinismExample = formatForLLM determinismExample :=
  formatForLLM_deterministic determinismExample determinismExample rfl

def headingsExample : PageData :=
  PageData.mk "T" "U" "tc"
    [Heading.mk 1 "Events" none, Heading.mk 2 "Upcoming" none] [] [] [] [] []

/-- Claim C9: a PageRecord whose headings are level 1 Events and level 2
Upcoming renders under format a Page Structure section equal to the
heading followed by a blank line, a line - Events, a line with two
spaces of indentation - Upcoming, and a final blank line, with each
heading indented by two spaces per level minus one. -/
theorem heading_structure_example :
    ∀ d : PageData,
      d.headings = [Heading.mk 1 "Events" none, Heading.mk 2 "Upcoming" none] →
      formatForLLM d =
        "# " ++ d.title ++ "\n\n" ++ "**URL:** " ++ d.url ++ "\n\n"
          ++ "## Page Structure\n\n- Events\n  - Upcoming\n\n"
          ++ navSection d.linkElements ++ interactiveSection d.interactiveElements
          ++ inputSection d.inputElements ++ buttonSection d.buttonElements
          ++ formSection d.formElements ++ "## Page Content\n\n" ++ d.textContent := by
  intro d h
  have hs : structureSection [Heading.mk 1 "Events" none, Heading.mk 2 "Upcoming" none]
      = "## Page Structure\n\n- Events\n  - Upcoming\n\n" := by decide
  simp only [formatForLLM, h, hs]

theorem heading_structure_example_witness :
    formatForLLM headingsExample =
      "# " ++ headingsExample.title ++ "\n\n" ++ "**URL:** " ++ headingsExample.url ++ "\n\n"
        ++ "## Page Structure\n\n- Events\n  - Upcoming\n\n"
        ++ navSection headingsExample.linkElements
        ++ interactiveSection headingsExample.interactiveElements
        ++ inputSection headingsExample.inputElements
        ++ buttonSection headingsExample.buttonElements
        ++ formSection headingsExample.formElements
        ++ "## Page Content\n\n" ++ headingsExample.textContent :=
  heading_structure_example headingsExample rfl

/-! ### Section spacing (claim C5) -/

def spacingExample : PageData :=
  PageData.mk "T" "U" "tc" [] [] [InputElement.mk "text" "Name" none]
    [ButtonElement.mk "submit" "Go"] [] []

/-- Claim C5, counterexample to the claim as stated: with a populated
Input Elements section followed by a populated Button Elements section,
the Button Elements heading follows the last input line directly, with
no blank line in between. -/
theorem section_spacing_counterexample :
    formatForLLM spacingExample =
      "# T\n\n**URL:** U\n\n## Input Elements\n\n- **TEXT**: \" Name\"\n## Button Elements\n\n- **SUBMIT**: \"Go\"\n## Page Content\n\ntc"
  ∧ chHas ("\n\n## Button Elements").data (formatForLLM spacingExample).data = false := by
  constructor
  · decide
  · decide

theorem strJoin_ends_or {α : Type} (S : String) (f : α → String)
    (hf : ∀ x, f x = "" ∨ ∃ p, f x = p ++ S) :
    ∀ l : List α, strJoin (l.map f) = "" ∨ ∃ p, strJoin (l.map f) = p ++ S
  | [] => Or.inl rfl
  | x :: rest => by
      rcases strJoin_ends_or S f hf rest with h | ⟨p, hp⟩
      · rcases hf x with hx | ⟨q, hq⟩
        · exact Or.inl (by simp [strJoin, hx, h, String.empty_append])
        · exact Or.inr ⟨q, by simp [strJoin, h, hq, String.append_empty]⟩
      · rcases hf x with hx | ⟨q, hq⟩
        · exact Or.inr ⟨p, by simp [strJoin, hx, hp, String.empty_append]⟩
        · exact Or.inr ⟨f x ++ p, by simp [strJoin, hp, String.append_assoc]⟩

theorem strJoin_ends_all {α : Type} (S : String) (f : α → String)
    (hf : ∀ x, ∃ p, f x = p ++ S) :
    ∀ l : List α, l ≠ [] → ∃ p, strJoin (l.map f) = p ++ S
  | [x], _ => by
      obtain ⟨p, hp⟩ := hf x
      exact ⟨p, by simp [strJoin, hp, String.append_empty]⟩
  | x :: y :: rest, _ => by
      obtain ⟨p, hp⟩ := strJoin_ends_all S f hf (y :: rest) (by simp)
      refine ⟨f x ++ p, ?_⟩
      rw [List.map_cons, strJoin, hp, String.append_assoc]

theorem headingLine_ends (h : Heading) : ∃ p, headingLine h = p ++ "\n" :=
  ⟨strRepeat "  " (h.level - 1) ++ "- " ++ h.text,
   by simp [headingLine, String.append_assoc]⟩

theorem navLine_ends (l : Link) : navLine l = "" ∨ ∃ p, navLine l = p ++ "\n" := by
  by_cases h : l.text = ""
  · exact Or.inl (by simp [navLine, h])
  · exact Or.inr ⟨"- " ++ l.text ++ ": " ++ l.href,
      by simp [navLine, h, String.append_assoc]⟩

theorem interactiveLine_ends (e : InteractiveElement) :
    interactiveLine e = "" ∨ ∃ p, interactiveLine e = p ++ "\n" := by
  by_cases h : e.text = ""
  · exact Or.inl (by simp [interactiveLine, h])
  · exact Or.inr ⟨"- **" ++ strUpper e.type ++ "**: \"" ++ e.text ++ "\"" ++ idSuffix e.id,
      by simp [interactiveLine, h, String.append_assoc]⟩

theorem inputLine_ends (ie : InputElement) : ∃ p, inputLine ie = p ++ "\"\n" :=
  ⟨"- **" ++ strUpper ie.type ++ "**: \"" ++ placeholderPart ie.placeholder ++ " " ++ ie.text,
   by simp [inputLine, String.append_assoc]⟩

theorem buttonLine_ends (b : ButtonElement) : ∃ p, buttonLine b = p ++ "\"\n" :=
  ⟨"- **" ++ strUpper b.type ++ "**: \"" ++ b.text,
   by simp [buttonLine, String.append_assoc]⟩

theorem formLine_ends (f : FormElement) : ∃ p, formLine f = p ++ "\"\n" :=
  ⟨"- **" ++ strUpper f.type ++ "**: \"" ++ f.text,
   by simp [formLine, String.append_assoc]⟩

theorem append_blank_tail (Hfull J : String)
    (hJ : J = "" ∨ ∃ p, J = p ++ "\n") (hH : ∃ q, Hfull = q ++ "\n\n") :
    ∃ p, (Hfull ++ J) ++ "\n" = p ++ "\n\n" := by
  obtain ⟨q, rfl⟩ := hH
  have e1 : ("\n" : String) ++ "\n" = "\n\n" := rfl
  have e2 : ("\n\n" : String) ++ "\n" = "\n" ++ "\n\n" := rfl
  rcases hJ with rfl | ⟨p, rfl⟩
  · refine ⟨q ++ "\n", ?_⟩
    simp only [String.append_empty, String.append_assoc, e2]
  · refine ⟨(q ++ "\n\n") ++ p, ?_⟩
    simp only [String.append_assoc, e1]

theorem append_quote_tail (Hfull J : String) (hJ : ∃ p, J = p ++ "\"\n") :
    ∃ p, Hfull ++ J = p ++ "\"\n" := by
  obtain ⟨p, rfl⟩ := hJ
  exact ⟨Hfull ++ p, by rw [String.append_assoc]⟩

theorem ite_section_empty_iff {α : Type} (l : List α) (a b c : String)
    (ha : 0 < a.length) :
    ((if l.length > 0 then a ++ b ++ c else "") = "" ↔ l = []) := by
  cases l with
  | nil => simp
  | cons x xs =>
      rw [if_pos (by simp)]
      have h2 : 0 < (a ++ b).length := by
        rw [String.length_append]
        omega
      exact iff_of_false (append_ne_empty (a ++ b) c h2) (by simp)

theorem ite_section_empty_iff2 {α : Type} (l : List α) (a b : String)
    (ha : 0 < a.length) :
    ((if l.length > 0 then a ++ b else "") = "" ↔ l = []) := by
  cases l with
  | nil => simp
  | cons x xs =>
      rw [if_pos (by simp)]
      exact iff_of_false (append_ne_empty a b ha) (by simp)

/-- Claim C5 (amended): a section is emitted exactly when its source
sequence is non-empty; the populated Page Structure, Available
Navigation and Interactive Elements sections end with a blank line
before the next section, but the populated Input, Button and Form
Elements sections end directly with the closing quote and newline of
their last item, with no blank line before the next section heading. -/
theorem format_section_spacing (d : PageData) :
    (formatForLLM d =
      "# " ++ d.title ++ "\n\n" ++ "**URL:** " ++ d.url ++ "\n\n"
        ++ structureSection d.headings ++ navSection d.linkElements
        ++ interactiveSection d.interactiveElements ++ inputSection d.inputElements
        ++ buttonSection d.buttonElements ++ formSection d.formElements
        ++ "## Page Content\n\n" ++ d.textContent)
  ∧ ((structureSection d.headings = "" ↔ d.headings = [])
      ∧ (navSection d.linkElements = "" ↔ d.linkElements = [])
      ∧ (interactiveSection d.interactiveElements = "" ↔ d.interactiveElements = [])
      ∧ (inputSection d.inputElements = "" ↔ d.inputElements = [])
      ∧ (buttonSection d.buttonElements = "" ↔ d.buttonElements = [])
      ∧ (formSection d.formElements = "" ↔ d.formElements = []))
  ∧ ((d.headings ≠ [] → ∃ p, structureSection d.headings = p ++ "\n\n")
      ∧ (d.linkElements ≠ [] → ∃ p, navSection d.linkElements = p ++ "\n\n")
      ∧ (d.interactiveElements ≠ [] →
          ∃ p, interactiveSection d.interactiveElements = p ++ "\n\n"))
  ∧ ((d.inputElements ≠ [] → ∃ p, inputSection d.inputElements = p ++ "\"\n")
      ∧ (d.buttonElements ≠ [] → ∃ p, buttonSection d.buttonElements = p ++ "\"\n")
      ∧ (d.formElements ≠ [] → ∃ p, formSection d.formElements = p ++ "\"\n")) := by
  refine ⟨rfl, ⟨?_, ?_, ?_, ?_, ?_, ?_⟩, ⟨?_, ?_, ?_⟩, ⟨?_, ?_, ?_⟩⟩
  · exact ite_section_empty_iff d.headings "## Page Structure\n\n"
      (strJoin (d.headings.map headingLine)) "\n" (by decide)
  · exact ite_section_empty_iff d.linkElements "## Available Navigation\n\n"
      (strJoin (d.linkElements.map navLine)) "\n" (by decide)
  · exact ite_section_empty_iff d.interactiveElements "## Interactive Elements\n\n"
      (strJoin (d.interactiveElements.map interactiveLine)) "\n" (by decide)
  · exact ite_section_empty_iff2 d.inputElements "## Input Elements\n\n"
      (strJoin (d.inputElements.map inputLine)) (by decide)
  · exact ite_section_empty_iff2 d.buttonElements "## Button Elements\n\n"
      (strJoin (d.buttonElements.map buttonLine)) (by decide)
  · exact ite_section_empty_iff2 d.formElements "## Form Elements\n\n"
      (strJoin (d.formElements.map formLine)) (by decide)
  · intro h
    rw [structureSection, if_pos (List.length_pos.mpr h)]
    exact append_blank_tail _ _
      (strJoin_ends_or "\n" headingLine (fun x => Or.inr (headingLine_ends x)) d.headings)
      ⟨"## Page Structure", rfl⟩
  · intro h
    rw [navSection, if_pos (List.length_pos.mpr h)]
    exact append_blank_tail _ _
      (strJoin_ends_or "\n" navLine navLine_ends d.linkElements)
      ⟨"## Available Navigation", rfl⟩
  · intro h
    rw [interactiveSection, if_pos (List.length_pos.mpr h)]
    exact append_blank_tail _ _
      (strJoin_ends_or "\n" interactiveLine interactiveLine_ends d.interactiveElements)
      ⟨"## Interactive Elements", rfl⟩
  · intro h
    rw [inputSection, if_pos (List.length_pos.mpr h)]
    exact append_quote_tail _ _
      (strJoin_ends_all "\"\n" inputLine inputLine_ends d.inputElements h)
  · intro h
    rw [buttonSection, if_pos (List.length_pos.mpr h)]
    exact append_quote_tail _ _
      (strJoin_ends_all "\"\n" buttonLine buttonLine_ends d.buttonElements h)
  · intro h
    rw [formSection, if_pos (List.length_pos.mpr h)]
    exact append_quote_tail _ _
      (strJoin_ends_all "\"\n" formLine formLine_ends d.formElements h)

theorem format_section_spacing_witness :
    ∃ p, inputSection spacingExample.inputElements = p ++ "\"\n" :=
  (format_section_spacing spacingExample).2.2.2.1 (by decide)

/-! ### Navigation and interactive rendering (claims C6 and C7) -/

def hiddenLinkExample : PageData :=
  PageData.mk "T" "U" "tc" [] [Link.mk "Home" "/home", Link.mk "" "/hidden"] [] [] [] []

theorem nav_filter_join : ∀ ls : List Link,
    strJoin (ls.map navLine) =
      strJoin ((ls.filter (fun l => !(l.text == ""))).map
        (fun l => "- " ++ l.text ++ ": " ++ l.href ++ "\n"))
  | [] => rfl
  | l :: rest => by
      by_cases h : l.text = ""
      · simp [strJoin, navLine, h, nav_filter_join rest, String.empty_append]
      · simp [strJoin, navLine, h, nav_filter_join rest]

/-- Claim C6: the Available Navigation section renders exactly the links
with non-empty display text, each as a dash, the text, a colon and the
href; a link with empty display text stays in the navigationLinks
sequence of the record but is absent from the rendering, as the concrete
record with the hidden link shows. -/
theorem nav_empty_text_links :
    (∀ ls : List Link, navSection ls =
        if ls.length > 0 then
          "## Available Navigation\n\n"
            ++ strJoin ((ls.filter (fun l => !(l.text == ""))).map
                (fun l => "- " ++ l.text ++ ": " ++ l.href ++ "\n")) ++ "\n"
        else "")
  ∧ Link.mk "" "/hidden" ∈ hiddenLinkExample.linkElements
  ∧ chHas "/hidden".data (formatForLLM hiddenLinkExample).data = false := by
  refine ⟨?_, by decide, by decide⟩
  intro ls
  rw [navSection, nav_filter_join ls]

def emptyLabelExample : PageData :=
  PageData.mk "T" "U" "tc" [] [] [] [] []
    [InteractiveElement.mk "button" "" (some "save-btn")]

/-- Claim C7, counterexample to the claim as stated: an interactive
element whose label is empty is not rendered at all, so neither its
upper-cased kind nor its id appears in the Interactive Elements
section. -/
theorem interactive_render_counterexample :
    formatForLLM emptyLabelExample =
      "# T\n\n**URL:** U\n\n## Interactive Elements\n\n\n## Page Content\n\ntc"
  ∧ chHas "BUTTON".data (formatForLLM emptyLabelExample).data = false
  ∧ chHas "save-btn".data (formatForLLM emptyLabelExample).data = false := by
  refine ⟨by decide, by decide, by decide⟩

theorem interactive_filter_join : ∀ es : List InteractiveElement,
    strJoin (es.map interactiveLine) =
      strJoin ((es.filter (fun e => !(e.text == ""))).map
        (fun e => "- **" ++ strUpper e.type ++ "**: \"" ++ e.text ++ "\""
          ++ idSuffix e.id ++ "\n"))
  | [] => rfl
  | e :: rest => by
      by_cases h : e.text = ""
      · simp [strJoin, interactiveLine, h, interactive_filter_join rest,
          String.empty_append]
      · simp [strJoin, interactiveLine, h, interactive_filter_join rest]

/-- Claim C7 (amended): the Interactive Elements section renders exactly
the elements with a non-empty label, each with its kind upper-cased, its
label quoted, and its id appended in parentheses when present and
non-empty; elements with an empty label are omitted. -/
theorem interactive_render_amended :
    ∀ es : List InteractiveElement, interactiveSection es =
      if es.length > 0 then
        "## Interactive Elements\n\n"
          ++ strJoin ((es.filter (fun e => !(e.text == ""))).map
              (fun e => "- **" ++ strUpper e.type ++ "**: \"" ++ e.text ++ "\""
                ++ idSuffix e.id ++ "\n")) ++ "\n"
      else "" := by
  intro es
  rw [interactiveSection, interactive_filter_join es]

end Crawler
